import Mathlib

/-!
Shallow embedding of the dr1ll HTTP reverse tunnel (Go).

Server side (internal/server/server.go): subdomain registry, tunnel
sessions with a buffered outbound channel, the reader/writer pumps, the
pending-request table and the public HTTP adapter.  Client side
(internal/client/client.go): the local forwarder and its error path.
Go maps are embedded as functions to Option, Go channels as a record of
an open flag and a buffered message list, and pointer-identified Client
structs live in a heap indexed by a numeric id.
-/

/-- Update of a map embedded as a function to Option. -/
def mupd {κ α : Type} [DecidableEq κ] (m : κ → Option α) (k : κ) (v : Option α) :
    κ → Option α :=
  fun x => if x = k then v else m x

/-- The wire frame, `type Message struct` (identical on server and client).
Missing optional JSON fields default to their Go zero values. -/
structure Message where
  type : String := ""
  id : String := ""
  subdomain : String := ""
  requestedSubdomain : String := ""
  method : String := ""
  path : String := ""
  headers : List (String × String) := []
  body : String := ""
  status : Nat := 0
  error : String := ""
deriving DecidableEq

/-- A Go channel of Message: an open flag and the buffered contents.
`close` leaves buffered messages receivable, as in Go. -/
structure GoChan where
  isOpen : Bool := true
  buf : List Message := []
deriving DecidableEq

/-- Server-side `type Client struct`: current subdomain label and the
outbound `send` channel (capacity 256). -/
structure Client where
  subdomain : String
  send : GoChan
deriving DecidableEq

/-- Server-side mutable state: `clients` registry (label to session id),
the heap of Client records behind the Go pointers, and the
`pendingRequests` table (request id to the capacity-one response
channel's buffer). -/
structure ServerState where
  clients : String → Option Nat
  heap : Nat → Option Client
  pendingRequests : String → Option (List Message)

def emptyServer : ServerState :=
  { clients := fun _ => none, heap := fun _ => none, pendingRequests := fun _ => none }

/-- `isSubdomainAvailable`: true iff no client is registered at the label. -/
def isSubdomainAvailable (s : ServerState) (sub : String) : Bool :=
  (s.clients sub).isNone

/-- `registerClient`: map the label to the session. -/
def registerClient (s : ServerState) (sub : String) (cid : Nat) : ServerState :=
  { s with clients := mupd s.clients sub (some cid) }

/-- Close a session's send channel, as `close(client.send)` does. -/
def closeSend (c : Client) : Client :=
  { c with send := { c.send with isOpen := false } }

/-- `unregisterClient`: if the label is registered, close that session's
send channel and delete the entry; otherwise do nothing. -/
def unregisterClient (s : ServerState) (sub : String) : ServerState :=
  match s.clients sub with
  | some cid =>
    { s with clients := mupd s.clients sub none,
             heap := mupd s.heap cid ((s.heap cid).map closeSend) }
  | none => s

/-- `getClient`: registry lookup. -/
def getClient (s : ServerState) (sub : String) : Option Nat :=
  s.clients sub

/-- Mutation `client.subdomain = ...` through the session pointer. -/
def setSubdomain (s : ServerState) (cid : Nat) (sub : String) : ServerState :=
  { s with heap := mupd s.heap cid ((s.heap cid).map (fun c => { c with subdomain := sub })) }

/-- A send towards the session's websocket transport: either enqueued on
the outbound `send` channel or written directly with `conn.WriteJSON`. -/
inductive WSAction where
  | enqueue (m : Message)
  | directWrite (m : Message)
deriving DecidableEq

/-- `handleSubdomainRequest`: if the requested label is available,
unregister the session from its current label (this closes its send
channel), update the label field, re-register under the new label and
write a `subdomain_assigned` frame directly to the transport; otherwise
write an `error` frame directly.  Returns the new state and the
transport sends performed. -/
def handleSubdomainRequest (domain : String) (s : ServerState) (cid : Nat)
    (msg : Message) : ServerState × List WSAction :=
  match s.heap cid with
  | none => (s, [])
  | some c =>
    if isSubdomainAvailable s msg.requestedSubdomain then
      let s1 := unregisterClient s c.subdomain
      let s2 := setSubdomain s1 cid msg.requestedSubdomain
      let s3 := registerClient s2 msg.requestedSubdomain cid
      (s3, [WSAction.directWrite
        { type := "subdomain_assigned",
          subdomain := msg.requestedSubdomain ++ "." ++ domain }])
    else
      (s, [WSAction.directWrite
        { type := "error",
          error := "Subdomain \x27" ++ msg.requestedSubdomain ++ "\x27 is not available" }])

/-- Fresh session object built in `HandleWebSocket`: generated label and
an open, empty send channel of capacity 256. -/
def newClient (generated : String) : Client :=
  { subdomain := generated, send := { isOpen := true, buf := [] } }

/-- Connection phase of `HandleWebSocket`: allocate the session in the
heap and register it under the generated label. -/
def handleWebSocketConnect (s : ServerState) (generated : String) (cid : Nat) :
    ServerState :=
  registerClient { s with heap := mupd s.heap cid (some (newClient generated)) }
    generated cid

/-- Scope-bound cleanup of `HandleWebSocket`: the deferred
`s.unregisterClient(subdomain)` call, whose argument is the label
generated at connect time (captured when the defer was installed), not
the session's current label. -/
def handleWebSocketCleanup (s : ServerState) (generatedSubdomain : String) : ServerState :=
  unregisterClient s generatedSubdomain

/-- Result of delivering an `http_response` frame to the pending table:
the blocking channel send `ch <- msg` succeeds immediately when the
capacity-one buffer has room, and blocks the caller when it is full;
an unknown id is dropped with a log line. -/
inductive DeliverRes where
  | delivered (s : ServerState)
  | droppedLog
  | blocked

/-- `handleHTTPResponse`: look up the response channel under the frame's
id and send the frame on it (blocking send on a capacity-one channel). -/
def handleHTTPResponse (s : ServerState) (msg : Message) : DeliverRes :=
  match s.pendingRequests msg.id with
  | some buf =>
    if buf.length < 1 then
      DeliverRes.delivered
        { s with pendingRequests := mupd s.pendingRequests msg.id (some (buf ++ [msg])) }
    else
      DeliverRes.blocked
  | none => DeliverRes.droppedLog

/-- State effect of a delivery result on the reader (a blocked or
dropped delivery leaves the table unchanged). -/
def applyDeliver (r : DeliverRes) (s : ServerState) : ServerState :=
  match r with
  | DeliverRes.delivered s2 => s2
  | _ => s

/-- One iteration of `readPump`'s dispatch switch on the frame type. -/
def readPumpStep (domain : String) (s : ServerState) (cid : Nat) (msg : Message) :
    ServerState × List WSAction :=
  match msg.type with
  | "http_response" => (applyDeliver (handleHTTPResponse s msg) s, [])
  | "subdomain_request" => handleSubdomainRequest domain s cid msg
  | _ => (s, [])

/-- One iteration of `writePump`: dequeue a frame and write it, or, once
the channel is closed and drained, write the close frame and exit. -/
inductive PumpStep where
  | write (m : Message) (rest : GoChan)
  | exitClose
  | blockedWait
deriving DecidableEq

def writePumpStep (c : GoChan) : PumpStep :=
  match c.buf with
  | m :: rest => PumpStep.write m { c with buf := rest }
  | [] => if c.isOpen then PumpStep.blockedWait else PumpStep.exitClose

/-- Go `strings.Split(host, ".")` restricted to the single-character
separator, over the character list of the host. -/
def splitDot : List Char → List (List Char)
  | [] => [[]]
  | c :: rest =>
    if c = '.' then [] :: splitDot rest
    else
      match splitDot rest with
      | [] => [[c]]
      | h :: t => (c :: h) :: t

/-- `strings.Contains(host, ".")`. -/
def hasDot (host : String) : Bool :=
  host.data.contains '.'

/-- `strings.Split(host, ".")[0]`: the label part of the Host header. -/
def firstLabel (host : String) : String :=
  String.mk ((splitDot host.data).headD [])

/-- What the adapter writes to the public `http.ResponseWriter`. -/
structure HTTPResponseW where
  status : Nat
  headers : List (String × String)
  body : String
deriving DecidableEq

/-- Go `http.Error(w, msg, code)`: plain-text body with a newline. -/
def httpError (msg : String) (code : Nat) : HTTPResponseW :=
  { status := code,
    headers := [("Content-Type", "text/plain; charset=utf-8")],
    body := msg ++ "\n" }

/-- Result of `select { case client.send <- msg: ... default: ... }` on
the capacity-256 outbound channel: enqueue when there is room, take the
default branch when full, and panic when the channel is closed (Go
panics on send to a closed channel even inside a select). -/
inductive EnqRes where
  | ok (c : GoChan)
  | full
  | panicked
deriving DecidableEq

def chanTrySend (c : GoChan) (m : Message) : EnqRes :=
  if c.isOpen = false then EnqRes.panicked
  else if c.buf.length < 256 then EnqRes.ok { c with buf := c.buf ++ [m] }
  else EnqRes.full

/-- Which of the three awaited events fires in the adapter's inner
select: a frame on the response channel, the 30-second timer, or the
public caller's context cancellation. -/
inductive HTTPOutcome where
  | response (m : Message)
  | timeout
  | cancelled
deriving DecidableEq

def insertPending (s : ServerState) (id : String) : ServerState :=
  { s with pendingRequests := mupd s.pendingRequests id (some []) }

/-- The deferred `delete(s.pendingRequests, requestID)`. -/
def removePending (s : ServerState) (id : String) : ServerState :=
  { s with pendingRequests := mupd s.pendingRequests id none }

/-- Store back the session's channel after a successful enqueue. -/
def setClientChan (s : ServerState) (cid : Nat) (ch : GoChan) : ServerState :=
  { s with heap := mupd s.heap cid ((s.heap cid).map (fun c => { c with send := ch })) }

/-- `HandleHTTPRequest`: route by the Host label, read the body and
flatten the headers (passed here already materialized), insert a
capacity-one response channel under a fresh request id, try a
non-blocking enqueue of the `http_request` frame, then await one of the
three events.  The first component is the public response (`none` when
the handler panicked on a closed channel); the deferred delete of the
pending entry runs on every exit.  The impossible heap miss (a Go map
holds live pointers) answers 404 like a registry miss. -/
def HandleHTTPRequest (s : ServerState) (host method path : String)
    (reqHeaders : List (String × String)) (body requestID : String)
    (outcome : HTTPOutcome) : Option HTTPResponseW × ServerState :=
  if hasDot host = false then (some (httpError "Invalid subdomain" 400), s)
  else
    match getClient s (firstLabel host) with
    | none => (some (httpError "Tunnel not found" 404), s)
    | some cid =>
      let s1 := insertPending s requestID
      match s1.heap cid with
      | none => (some (httpError "Tunnel not found" 404), removePending s1 requestID)
      | some c =>
        let msg : Message :=
          { type := "http_request", id := requestID, method := method,
            path := path, headers := reqHeaders, body := body }
        match chanTrySend c.send msg with
        | EnqRes.panicked => (none, removePending s1 requestID)
        | EnqRes.full =>
          (some (httpError "Tunnel is busy" 503), removePending s1 requestID)
        | EnqRes.ok ch =>
          let s2 := setClientChan s1 cid ch
          match outcome with
          | HTTPOutcome.response resp =>
            (some { status := resp.status, headers := resp.headers, body := resp.body },
             removePending s2 requestID)
          | HTTPOutcome.timeout =>
            (some (httpError "Client response timeout" 504), removePending s2 requestID)
          | HTTPOutcome.cancelled =>
            (some (httpError "Request cancelled" 408), removePending s2 requestID)

/-- Client side: body of the synthesized error frame,
Sprintf of \x7b"error": "%s"\x7d applied to the message. -/
def jsonErrBody (e : String) : String :=
  "\x7b\"error\": \"" ++ e ++ "\"\x7d"

/-- Client `sendErrorResponse`: the `http_response` frame written (under
the write mutex) when local forwarding fails. -/
def sendErrorResponse (requestID errorMsg : String) : Message :=
  { type := "http_response", id := requestID, status := 500,
    headers := [("Content-Type", "application/json")],
    body := jsonErrBody errorMsg }

/-- Outcome of the client's local HTTP call for one `http_request`
frame: failure at request construction, at the transport, at the
response-body read, or success with status, flattened headers and
body. -/
inductive LocalResult where
  | buildErr (e : String)
  | doErr (e : String)
  | readErr (e : String)
  | ok (status : Nat) (headers : List (String × String)) (body : String)

/-- Client `forwardRequest`: the list of frames the worker writes back
to the tunnel for the given local outcome. -/
def forwardRequest (msg : Message) (res : LocalResult) : List Message :=
  match res with
  | LocalResult.buildErr e =>
    [sendErrorResponse msg.id ("Failed to create request: " ++ e)]
  | LocalResult.doErr e =>
    [sendErrorResponse msg.id ("Request failed: " ++ e)]
  | LocalResult.readErr e =>
    [sendErrorResponse msg.id ("Failed to read response: " ++ e)]
  | LocalResult.ok st hs b =>
    [{ type := "http_response", id := msg.id, status := st, headers := hs, body := b }]

/-- Go strings are byte strings; bodies travel as such. -/
abbrev GoStr := List Nat

/-- Continuation byte 0x80..0xBF of a UTF-8 sequence. -/
def isCont (b : Nat) : Bool :=
  decide (128 ≤ b ∧ b ≤ 191)

/-- Admissible second byte of a three-byte UTF-8 sequence, per the lead
byte (excludes overlong forms and surrogates, as Go's utf8 package
does). -/
def cont3 (b0 b1 : Nat) : Bool :=
  if b0 = 224 then decide (160 ≤ b1 ∧ b1 ≤ 191)
  else if b0 = 237 then decide (128 ≤ b1 ∧ b1 ≤ 159)
  else isCont b1

/-- Admissible second byte of a four-byte UTF-8 sequence, per the lead
byte (excludes overlong forms and values beyond U+10FFFF). -/
def cont4 (b0 b1 : Nat) : Bool :=
  if b0 = 240 then decide (144 ≤ b1 ∧ b1 ≤ 191)
  else if b0 = 244 then decide (128 ≤ b1 ∧ b1 ≤ 143)
  else isCont b1

/-- UTF-8 encoding of U+FFFD, the replacement character. -/
def rep : List Nat := [239, 191, 189]

/-- Length of the valid UTF-8 sequence at the head of the byte string,
or 0 when the head byte starts no valid sequence.  Mirrors the accept
ranges of Go's utf8.DecodeRune (no overlong forms, no surrogates,
nothing above U+10FFFF). -/
def seqLen (l : GoStr) : Nat :=
  match l with
  | [] => 0
  | b0 :: tl =>
    if b0 < 128 then 1
    else if 194 ≤ b0 ∧ b0 ≤ 223 then
      match tl with
      | b1 :: _ => if isCont b1 then 2 else 0
      | [] => 0
    else if 224 ≤ b0 ∧ b0 ≤ 239 then
      match tl with
      | b1 :: b2 :: _ => if cont3 b0 b1 && isCont b2 then 3 else 0
      | _ => 0
    else if 240 ≤ b0 ∧ b0 ≤ 244 then
      match tl with
      | b1 :: b2 :: b3 :: _ => if cont4 b0 b1 && isCont b2 && isCont b3 then 4 else 0
      | _ => 0
    else 0

/-- Net effect of carrying a Go string through the JSON text frame
(`conn.WriteJSON` then `ReadJSON`): Go's JSON encoder decodes the string
rune by rune, copies each valid sequence, and writes one replacement
character per byte on which decoding fails, consuming that single byte.
The fuel argument only makes the recursion structural; every step
consumes at least one byte, so fuel equal to the length is enough. -/
def utf8FixF : Nat → GoStr → GoStr
  | _, [] => []
  | 0, l => l
  | Nat.succ n, b0 :: tl =>
    let k := seqLen (b0 :: tl)
    if k = 0 then rep ++ utf8FixF n tl
    else (b0 :: tl).take k ++ utf8FixF n ((b0 :: tl).drop k)

def utf8Fix (l : GoStr) : GoStr := utf8FixF l.length l

/-- Well-formed UTF-8 byte strings: a sequence of valid head sequences. -/
inductive ValidUtf8 : GoStr → Prop where
  | nil : ValidUtf8 []
  | seq (l : GoStr) (k : Nat) (hk : seqLen l = k) (hne : k ≠ 0)
      (hrest : ValidUtf8 (l.drop k)) : ValidUtf8 l

/-- Client `forwardRequest` line `Body: string(respBody)`: a Go byte
slice converted to a string keeps its bytes. -/
def forwardRespBodyToFrame (respBody : GoStr) : GoStr := respBody

/-- Server `HandleHTTPRequest` line `w.Write([]byte(resp.Body))`: the
frame's body string is written to the public response byte for byte. -/
def writeFrameBody (frameBody : GoStr) : GoStr := frameBody

/-- Body bytes the public caller receives for a local response body:
the client's string conversion, the JSON frame transcoding, then the
adapter's write. -/
def tunnelBodyBytes (respBody : GoStr) : GoStr :=
  writeFrameBody (utf8Fix (forwardRespBodyToFrame respBody))

/-- Post-connect state of a session: id 0, generated label a1b2c3d4. -/
def st0 : ServerState := handleWebSocketConnect emptyServer "a1b2c3d4" 0

/-- A client rename request for the free label myapp. -/
def renameMsg : Message := { type := "subdomain_request", requestedSubdomain := "myapp" }

/-- State of the session after the successful rename. -/
def afterRename : ServerState := (handleSubdomainRequest "example.com" st0 0 renameMsg).1

/-- A response frame already buffered in a pending sink. -/
def m0 : Message := { type := "http_response", id := "r1", status := 200 }

/-- Pending table with the capacity-one sink for r1 already full. -/
def st5 : ServerState :=
  { clients := fun _ => none, heap := fun _ => none,
    pendingRequests := mupd (fun _ => none) "r1" (some [m0]) }

/-- A second response frame carrying the same id r1. -/
def m5 : Message := { type := "http_response", id := "r1", status := 201 }

/-- Pending table with an empty sink registered for r2. -/
def stp : ServerState :=
  { clients := fun _ => none, heap := fun _ => none,
    pendingRequests := mupd (fun _ => none) "r2" (some []) }

/-- A response frame carrying id r2. -/
def mp : Message := { type := "http_response", id := "r2", status := 200 }

/-- A rename request for the session's own current label. -/
def m10 : Message := { type := "subdomain_request", requestedSubdomain := "a1b2c3d4" }

/-- A rename request for the empty label. -/
def m9 : Message := { type := "subdomain_request", requestedSubdomain := "" }

/-- A session whose outbound queue is filled to its 256-frame capacity. -/
def fullChanClient : Client :=
  { subdomain := "busy", send := { isOpen := true, buf := List.replicate 256 m0 } }

/-- Server state with the saturated session registered at label busy. -/
def st6 : ServerState :=
  { clients := mupd (fun _ => none) "busy" (some 1),
    heap := mupd (fun _ => none) 1 (some fullChanClient),
    pendingRequests := fun _ => none }

theorem utf8FixF_nil (n : Nat) : utf8FixF n [] = [] := by
  cases n <;> rfl

theorem utf8FixF_of_valid :
    ∀ (l : GoStr), ValidUtf8 l → ∀ (n : Nat), l.length ≤ n → utf8FixF n l = l := by
  intro l hv
  induction hv with
  | nil =>
    intro n _
    exact utf8FixF_nil n
  | seq l k hk hne hrest ih =>
    intro n hl
    match l, n with
    | [], m => exact utf8FixF_nil m
    | b0 :: tl, 0 => simp at hl
    | b0 :: tl, Nat.succ n =>
      have hdroplen : ((b0 :: tl).drop k).length ≤ n := by
        have h1 : ((b0 :: tl).drop k).length = (b0 :: tl).length - k :=
          List.length_drop k (b0 :: tl)
        have h2 : 1 ≤ k := Nat.one_le_iff_ne_zero.mpr hne
        simp only [List.length_cons] at hl h1
        omega
      rw [utf8FixF]
      simp only [hk, if_neg hne]
      rw [ih n hdroplen]
      exact List.take_append_drop k (b0 :: tl)

theorem utf8Fix_of_valid (l : GoStr) (h : ValidUtf8 l) : utf8Fix l = l :=
  utf8FixF_of_valid l h l.length (Nat.le_refl _)

/-- C1: a successful rename moves the registry entry to the new label
only, but inside the rename `unregisterClient` closes the session's own
send channel, and between the unregister and the register the session is
registered under neither label.  The first two conjuncts are the part of
the claim that holds; the third shows the outbound queue is closed after
the rename (the claim says it stays open); the last two exhibit the
intermediate state of the swap, registered under neither label. -/
theorem rename_closes_queue_and_gap :
    (afterRename.clients "myapp" = some 0) ∧
    (afterRename.clients "a1b2c3d4" = none) ∧
    ((afterRename.heap 0).map (fun c => c.send.isOpen) = some false) ∧
    ((unregisterClient st0 "a1b2c3d4").clients "a1b2c3d4" = none) ∧
    ((unregisterClient st0 "a1b2c3d4").clients "myapp" = none) := by
  decide

/-- C2: the deferred cleanup of `HandleWebSocket` unregisters the label
generated at connect time.  After a successful rename that label is no
longer registered, so the cleanup is a no-op and the renamed label keeps
mapping to the (already closed) session after the reader has exited. -/
theorem cleanup_misses_renamed_label :
    (handleWebSocketCleanup afterRename "a1b2c3d4" = afterRename) ∧
    ((handleWebSocketCleanup afterRename "a1b2c3d4").clients "myapp" = some 0) ∧
    (((handleWebSocketCleanup afterRename "a1b2c3d4").heap 0).map
      (fun c => c.send.isOpen) = some false) := by
  refine ⟨rfl, by decide, by decide⟩

/-- C3: the reader loop's dispatch of a `subdomain_request` frame
performs a direct transport write (`conn.WriteJSON` inside
`handleSubdomainRequest`) rather than an enqueue on the outbound queue,
although the reader runs concurrently with the writer task. -/
theorem reader_direct_write_on_rename :
    (readPumpStep "example.com" st0 0 renameMsg).2 =
      [WSAction.directWrite
        { type := "subdomain_assigned", subdomain := "myapp.example.com" }] := by
  decide

/-- C5 counterexample: delivering an `http_response` whose id has a
registered sink with a full capacity-one buffer is a blocking channel
send, so the reader loop blocks, contrary to the claim that delivery
never blocks. -/
theorem deliver_blocks_on_full_sink :
    handleHTTPResponse st5 m5 = DeliverRes.blocked := by
  rfl

/-- C5 as amended: when the registered sink's capacity-one buffer is
empty (the first delivery for the id) the frame is placed in the buffer
without blocking, and when no sink is registered the frame is discarded
with a log entry. -/
theorem deliver_nonblocking_cases (s : ServerState) (msg : Message) :
    (s.pendingRequests msg.id = some [] →
      handleHTTPResponse s msg =
        DeliverRes.delivered
          { s with pendingRequests := mupd s.pendingRequests msg.id (some [msg]) }) ∧
    (s.pendingRequests msg.id = none →
      handleHTTPResponse s msg = DeliverRes.droppedLog) := by
  constructor
  · intro h
    simp [handleHTTPResponse, h]
  · intro h
    simp [handleHTTPResponse, h]

/-- Witness for the amended C5 at a concrete state with an empty sink. -/
theorem deliver_nonblocking_cases_witness :
    stp.pendingRequests mp.id = some [] ∧
    handleHTTPResponse stp mp =
      DeliverRes.delivered
        { stp with pendingRequests := mupd stp.pendingRequests mp.id (some [mp]) } :=
  ⟨rfl, (deliver_nonblocking_cases stp mp).1 rfl⟩

/-- C9: the rename path validates nothing about the requested label.
Whenever the session exists and the requested string — any string at
all, the empty string included — is not currently registered, the rename
succeeds: the registry maps the string to the session (so it is the key
the public Host-based lookup uses), the session's label field becomes
the string, and a `subdomain_assigned` frame echoing `label.domain` is
written back. -/
theorem rename_no_validation (domain : String) (s : ServerState) (cid : Nat)
    (c : Client) (msg : Message) (hheap : s.heap cid = some c)
    (havail : s.clients msg.requestedSubdomain = none) :
    getClient (handleSubdomainRequest domain s cid msg).1 msg.requestedSubdomain =
      some cid ∧
    ((handleSubdomainRequest domain s cid msg).1.heap cid).map Client.subdomain =
      some msg.requestedSubdomain ∧
    (handleSubdomainRequest domain s cid msg).2 =
      [WSAction.directWrite
        { type := "subdomain_assigned",
          subdomain := msg.requestedSubdomain ++ "." ++ domain }] := by
  have hav : isSubdomainAvailable s msg.requestedSubdomain = true := by
    simp [isSubdomainAvailable, havail]
  cases hcur : s.clients c.subdomain with
  | none =>
    simp [handleSubdomainRequest, hheap, hav, unregisterClient, hcur,
      registerClient, setSubdomain, getClient, mupd]
  | some cid2 =>
    by_cases hc : cid = cid2
    · subst hc
      simp [handleSubdomainRequest, hheap, hav, unregisterClient, hcur,
        registerClient, setSubdomain, getClient, closeSend, mupd]
    · simp [handleSubdomainRequest, hheap, hav, unregisterClient, hcur,
        registerClient, setSubdomain, getClient, closeSend, mupd, hc]

/-- Witness for C9 at the empty string: the empty label is not 8 hex
characters, yet the rename succeeds and the empty string becomes the
session's registered routing key. -/
theorem rename_no_validation_witness :
    (st0.heap 0 = some (newClient "a1b2c3d4") ∧
     st0.clients m9.requestedSubdomain = none) ∧
    (getClient (handleSubdomainRequest "example.com" st0 0 m9).1 m9.requestedSubdomain =
      some 0 ∧
    ((handleSubdomainRequest "example.com" st0 0 m9).1.heap 0).map Client.subdomain =
      some m9.requestedSubdomain ∧
    (handleSubdomainRequest "example.com" st0 0 m9).2 =
      [WSAction.directWrite
        { type := "subdomain_assigned",
          subdomain := m9.requestedSubdomain ++ "." ++ "example.com" }]) :=
  ⟨⟨rfl, rfl⟩,
   rename_no_validation "example.com" st0 0 (newClient "a1b2c3d4") m9 rfl rfl⟩

/-- C10: requesting the session's own current label always fails: the
availability check finds the session's existing registration, the server
writes an `error` frame naming the label, and the state is unchanged. -/
theorem rename_self_label_fails (domain : String) (s : ServerState) (cid : Nat)
    (c : Client) (msg : Message) (hheap : s.heap cid = some c)
    (hself : msg.requestedSubdomain = c.subdomain)
    (hreg : s.clients c.subdomain = some cid) :
    handleSubdomainRequest domain s cid msg =
      (s, [WSAction.directWrite
        { type := "error",
          error := "Subdomain \x27" ++ c.subdomain ++ "\x27 is not available" }]) := by
  have hav : isSubdomainAvailable s msg.requestedSubdomain = false := by
    simp [isSubdomainAvailable, hself, hreg]
  rw [hself] at hav
  simp [handleSubdomainRequest, hheap, hav, hself]

/-- Witness for C10: the freshly connected session at a1b2c3d4 asks for
a1b2c3d4 again and receives the unavailability error, state unchanged. -/
theorem rename_self_label_fails_witness :
    (st0.heap 0 = some (newClient "a1b2c3d4") ∧
     m10.requestedSubdomain = (newClient "a1b2c3d4").subdomain ∧
     st0.clients (newClient "a1b2c3d4").subdomain = some 0) ∧
    handleSubdomainRequest "example.com" st0 0 m10 =
      (st0, [WSAction.directWrite
        { type := "error",
          error := "Subdomain \x27" ++ (newClient "a1b2c3d4").subdomain ++
            "\x27 is not available" }]) :=
  ⟨⟨rfl, rfl, rfl⟩,
   rename_self_label_fails "example.com" st0 0 (newClient "a1b2c3d4") m10 rfl rfl rfl⟩

/-- C4: once the `http_request` frame is enqueued, the adapter finishes
in exactly one of three ways — copying status, headers and body of the
frame received on its sink, a 504 after the 30-second timer, or a 408 on
upstream disconnect — and on every exit the pending-table entry for the
request id is removed. -/
theorem adapter_three_exit_paths (s : ServerState) (host method path : String)
    (reqHeaders : List (String × String)) (body requestID : String)
    (cid : Nat) (c : Client)
    (hdot : hasDot host = true)
    (hcli : getClient s (firstLabel host) = some cid)
    (hheap : s.heap cid = some c)
    (hopen : c.send.isOpen = true)
    (hroom : c.send.buf.length < 256) :
    (∀ m, (HandleHTTPRequest s host method path reqHeaders body requestID
        (HTTPOutcome.response m)).1 =
      some { status := m.status, headers := m.headers, body := m.body }) ∧
    ((HandleHTTPRequest s host method path reqHeaders body requestID
        HTTPOutcome.timeout).1 = some (httpError "Client response timeout" 504)) ∧
    ((HandleHTTPRequest s host method path reqHeaders body requestID
        HTTPOutcome.cancelled).1 = some (httpError "Request cancelled" 408)) ∧
    (∀ o, (HandleHTTPRequest s host method path reqHeaders body requestID
        o).2.pendingRequests requestID = none) := by
  refine ⟨fun m => ?_, ?_, ?_, fun o => ?_⟩ <;>
    [skip; skip; skip; cases o] <;>
    simp [HandleHTTPRequest, hdot, hcli, insertPending, hheap, chanTrySend, hopen,
      hroom, removePending, setClientChan, mupd]

/-- Witness for C4: the freshly connected session, a request to
a1b2c3d4.example.com, each of the three select outcomes. -/
theorem adapter_three_exit_paths_witness :
    (hasDot "a1b2c3d4.example.com" = true ∧
     getClient st0 (firstLabel "a1b2c3d4.example.com") = some 0 ∧
     st0.heap 0 = some (newClient "a1b2c3d4") ∧
     (newClient "a1b2c3d4").send.isOpen = true ∧
     (newClient "a1b2c3d4").send.buf.length < 256) ∧
    ((∀ m, (HandleHTTPRequest st0 "a1b2c3d4.example.com" "GET" "/" [] "" "rid1"
        (HTTPOutcome.response m)).1 =
      some { status := m.status, headers := m.headers, body := m.body }) ∧
    ((HandleHTTPRequest st0 "a1b2c3d4.example.com" "GET" "/" [] "" "rid1"
        HTTPOutcome.timeout).1 = some (httpError "Client response timeout" 504)) ∧
    ((HandleHTTPRequest st0 "a1b2c3d4.example.com" "GET" "/" [] "" "rid1"
        HTTPOutcome.cancelled).1 = some (httpError "Request cancelled" 408)) ∧
    (∀ o, (HandleHTTPRequest st0 "a1b2c3d4.example.com" "GET" "/" [] "" "rid1"
        o).2.pendingRequests "rid1" = none)) :=
  ⟨⟨by decide, by decide, rfl, rfl, by decide⟩,
   adapter_three_exit_paths st0 "a1b2c3d4.example.com" "GET" "/" [] "" "rid1" 0
     (newClient "a1b2c3d4") (by decide) (by decide) rfl rfl (by decide)⟩

/-- C6: when the session's outbound queue already holds 256 frames, the
non-blocking enqueue takes the select's default branch: for any awaited
event the adapter answers 503 `Tunnel is busy` at once, and the pending
entry it inserted is removed. -/
theorem full_queue_immediate_503 (s : ServerState) (host method path : String)
    (reqHeaders : List (String × String)) (body requestID : String)
    (cid : Nat) (c : Client)
    (hdot : hasDot host = true)
    (hcli : getClient s (firstLabel host) = some cid)
    (hheap : s.heap cid = some c)
    (hopen : c.send.isOpen = true)
    (hfull : c.send.buf.length = 256) :
    ∀ o, (HandleHTTPRequest s host method path reqHeaders body requestID o).1 =
        some (httpError "Tunnel is busy" 503) ∧
      (HandleHTTPRequest s host method path reqHeaders body requestID
        o).2.pendingRequests requestID = none := by
  intro o
  have hnoroom : ¬ c.send.buf.length < 256 := by omega
  constructor <;>
    simp [HandleHTTPRequest, hdot, hcli, insertPending, hheap, chanTrySend, hopen,
      hnoroom, removePending, mupd]

/-- Witness for C6: a request to busy.example.com against the saturated
session, checked for the timeout outcome. -/
theorem full_queue_immediate_503_witness :
    (hasDot "busy.example.com" = true ∧
     getClient st6 (firstLabel "busy.example.com") = some 1 ∧
     st6.heap 1 = some fullChanClient ∧
     fullChanClient.send.isOpen = true ∧
     fullChanClient.send.buf.length = 256) ∧
    ((HandleHTTPRequest st6 "busy.example.com" "GET" "/" [] "" "rid2"
        HTTPOutcome.timeout).1 = some (httpError "Tunnel is busy" 503) ∧
     (HandleHTTPRequest st6 "busy.example.com" "GET" "/" [] "" "rid2"
        HTTPOutcome.timeout).2.pendingRequests "rid2" = none) :=
  ⟨⟨by decide, by decide, rfl, rfl, List.length_replicate 256 m0⟩,
   full_queue_immediate_503 st6 "busy.example.com" "GET" "/" [] "" "rid2" 1
     fullChanClient (by decide) (by decide) rfl rfl (List.length_replicate 256 m0)
     HTTPOutcome.timeout⟩

/-- C7: every failure stage of the client's local forwarding — request
construction, the local HTTP call, and the response-body read — sends
back exactly one `http_response` frame with the original id, status 500,
Content-Type application/json and a JSON body carrying the stage's error
message. -/
theorem forward_failure_single_500_frame :
    ∀ (msg : Message) (e : String),
      forwardRequest msg (LocalResult.buildErr e) =
        [{ type := "http_response", id := msg.id, status := 500,
           headers := [("Content-Type", "application/json")],
           body := jsonErrBody ("Failed to create request: " ++ e) }] ∧
      forwardRequest msg (LocalResult.doErr e) =
        [{ type := "http_response", id := msg.id, status := 500,
           headers := [("Content-Type", "application/json")],
           body := jsonErrBody ("Request failed: " ++ e) }] ∧
      forwardRequest msg (LocalResult.readErr e) =
        [{ type := "http_response", id := msg.id, status := 500,
           headers := [("Content-Type", "application/json")],
           body := jsonErrBody ("Failed to read response: " ++ e) }] := by
  intro msg e
  exact ⟨rfl, rfl, rfl⟩

/-- C8 counterexample: the single byte 0xFF is not valid UTF-8; the JSON
text frame turns it into the replacement character, so the public caller
does not receive the local server's exact body bytes. -/
theorem body_roundtrip_fails_non_utf8 :
    tunnelBodyBytes [255] ≠ [255] := by
  decide

/-- C8 as amended: for a local response body that is well-formed UTF-8,
the adapter writes exactly the bytes the client's forwarder read — the
repository code on both sides moves the bytes unchanged and the JSON
frame preserves valid UTF-8. -/
theorem body_roundtrip_valid_utf8 (b : GoStr) (h : ValidUtf8 b) :
    tunnelBodyBytes b = b := by
  unfold tunnelBodyBytes writeFrameBody forwardRespBodyToFrame
  exact utf8Fix_of_valid b h

/-- Witness for the amended C8 on the concrete body "hi" (bytes 104,
105). -/
theorem body_roundtrip_valid_utf8_witness :
    ValidUtf8 [104, 105] ∧ tunnelBodyBytes [104, 105] = [104, 105] :=
  ⟨ValidUtf8.seq _ 1 rfl (by decide)
      (ValidUtf8.seq _ 1 rfl (by decide) ValidUtf8.nil),
   body_roundtrip_valid_utf8 [104, 105]
     (ValidUtf8.seq _ 1 rfl (by decide)
       (ValidUtf8.seq _ 1 rfl (by decide) ValidUtf8.nil))⟩
